import Mathlib

/-!
Verification of the timg frame-geometry and playback-sequencing core
(src/image-source.cc and src/timg.cc).

Modelling conventions:
* C `int` is modelled as the unbounded `Int` (terminal dimensions are far
  from overflow).
* C `float` arithmetic in `CalcScaleToFitDisplay` is modelled by exact
  rational arithmetic over `ℚ`; `roundf` (round half away from zero) is
  modelled by `roundf` below, and the C truncating integer division `/`
  on non-negative operands by `Int.tdiv`.
* The decode backends (`ImageLoader` / `VideoLoader` and their
  `LoadAndScale`) are external collaborators; whether a given file loads
  as an image or as a video is abstracted by two boolean oracles per file.
* The build with video support compiled in (`WITH_TIMG_VIDEO`) is the one
  modelled.
* The `SendFrames` playback loop lives in image-display.cc /
  video-display.cc, which are not part of this tree; it is modelled from
  the specification (see `sendFramesLoop`).
-/

namespace Timg

/-- C `roundf`: round to nearest integer, halfway cases away from zero. -/
def roundf (x : ℚ) : Int :=
  if 0 ≤ x then ⌊x + 1 / 2⌋ else ⌈x - 1 / 2⌉

/-- The fields of `DisplayOptions` (display-options.h) that the geometry
computation reads: target box in pixels, the two fill flags and the
upscale flag. -/
structure DisplayOptions where
  width : Int
  height : Int
  fill_width : Bool
  fill_height : Bool
  upscale : Bool
deriving DecidableEq, Repr

/-- Result of `ImageSource::CalcScaleToFitDisplay`: the two out-parameters
`*target_width`, `*target_height` and the returned bool. -/
structure ScaleResult where
  target_width : Int
  target_height : Int
  scaled : Bool
deriving DecidableEq, Repr

/-- The early-return guard of `CalcScaleToFitDisplay`
(image-source.cc lines 36-38):
`!options.upscale && (options.fill_height || width_fraction > 1.0)
 && (options.fill_width || height_fraction > 1.0)`. -/
def noUpscaleGuard (img_width img_height : Int) (options : DisplayOptions) : Bool :=
  !options.upscale &&
    (options.fill_height || decide ((options.width : ℚ) / img_width > 1)) &&
    (options.fill_width || decide ((options.height : ℚ) / img_height > 1))

/-- The mode-dependent target computation of `CalcScaleToFitDisplay`
(image-source.cc lines 44-74), before the final clamp: the pair starts as
`(options.width, options.height)` and the branch for the active fill mode
overwrites one or both components. -/
def fitTargets (img_width img_height : Int) (options : DisplayOptions) : Int × Int :=
  let width_fraction : ℚ := (options.width : ℚ) / img_width
  let height_fraction : ℚ := (options.height : ℚ) / img_height
  if options.fill_width && options.fill_height then
    let larger_fraction :=
      if width_fraction > height_fraction then width_fraction else height_fraction
    (roundf (larger_fraction * img_width), roundf (larger_fraction * img_height))
  else if options.fill_height then
    (roundf (height_fraction * img_width), options.height)
  else if options.fill_width then
    (options.width, roundf (width_fraction * img_height))
  else
    let smaller_fraction :=
      if width_fraction < height_fraction then width_fraction else height_fraction
    (roundf (smaller_fraction * img_width), roundf (smaller_fraction * img_height))

/-- `ImageSource::CalcScaleToFitDisplay` (image-source.cc lines 29-81):
early return of the native size when the image already fits and upscaling
is off; otherwise the mode-dependent targets, clamped to at least 1, and
the returned bool says whether the target differs from the native size. -/
def CalcScaleToFitDisplay (img_width img_height : Int)
    (options : DisplayOptions) : ScaleResult :=
  if noUpscaleGuard img_width img_height options then
    { target_width := img_width, target_height := img_height, scaled := false }
  else
    let t := fitTargets img_width img_height options
    let tw := if t.1 ≤ 0 then 1 else t.1
    let th := if t.2 ≤ 0 then 1 else t.2
    { target_width := tw, target_height := th,
      scaled := tw != img_width || th != img_height }

/-- Which backend a successfully created `ImageSource` came from. -/
inductive SourceKind where
  | image
  | video
deriving DecidableEq, Repr

/-- One input file together with the two external-backend oracles: whether
`ImageLoader(filename).LoadAndScale(...)` would succeed, and whether
`VideoLoader(filename).LoadAndScale(...)` would succeed. -/
structure FileSpec where
  name : String
  image_loads : Bool
  video_loads : Bool
deriving DecidableEq, Repr

/-- The diagnostic messages `ImageSource::Create` prints on stderr when
every enabled backend failed (image-source.cc lines 105-110). -/
def createMessages (filename : String) : List String :=
  (filename ++ "\x3a couldn\x27t load") ::
    (if filename = "-" ∨ filename = "/dev/stdin" then
      ["If this is a video on stdin, use \x27-V\x27 to skip image probing"]
    else [])

/-- `ImageSource::Create` (image-source.cc lines 83-113): try the image
backend first when `attempt_image_loading` is set and return on success;
otherwise try the video backend when `attempt_video_loading` is set;
otherwise fail, printing a diagnostic that names the file. -/
def ImageSource.Create (f : FileSpec)
    (attempt_image_loading attempt_video_loading : Bool) :
    Option SourceKind × List String :=
  if attempt_image_loading && f.image_loads then
    (some SourceKind.image, [])
  else if attempt_video_loading && f.video_loads then
    (some SourceKind.video, [])
  else
    (none, createMessages f.name)

/-- What happened for one input file in `main`'s loop: either a source was
created (recording the `DisplayOptions` it was created and scaled with) or
the file failed to load and the loop continued. -/
inductive MainEvent where
  | shown (filename : String) (kind : SourceKind) (constraints : DisplayOptions)
  | skipped (filename : String)
deriving DecidableEq, Repr

/-- The per-file loop of `main` (timg.cc lines 371-380): the loop condition
checks `interrupt_received` before each file; a file whose
`ImageSource::Create` fails is skipped with `continue`; otherwise the
source is shown. Every created source receives the same `DisplayOptions`. -/
def mainFileLoop (interrupt : Bool) (opts : DisplayOptions)
    (do_image do_video : Bool) : List FileSpec → List MainEvent
  | [] => []
  | f :: rest =>
    if interrupt then []
    else
      match (ImageSource.Create f do_image do_video).1 with
      | none => MainEvent.skipped f.name :: mainFileLoop interrupt opts do_image do_video rest
      | some k => MainEvent.shown f.name k opts :: mainFileLoop interrupt opts do_image do_video rest

/-- The grid partition of `main` (timg.cc lines 363-365):
`display_opts.width /= grid_cols; display_opts.height /= grid_rows;`
C integer division truncates toward zero, hence `Int.tdiv`. -/
def gridCellOptions (opts : DisplayOptions) (grid_cols grid_rows : Int) :
    DisplayOptions :=
  { opts with
      width := Int.tdiv opts.width grid_cols,
      height := Int.tdiv opts.height grid_rows }

/-- The tail of `main` (timg.cc lines 363-388): divide the display into
grid cells, run the per-file loop with the divided options, and return the
process exit code. `exit_code` is initialized to 0 (line 369) and never
reassigned anywhere in the loop, so `main` returns 0 on this path. -/
def mainRun (opts : DisplayOptions) (grid_cols grid_rows : Int)
    (interrupt do_image do_video : Bool) (files : List FileSpec) :
    List MainEvent × Int :=
  (mainFileLoop interrupt (gridCellOptions opts grid_cols grid_rows)
    do_image do_video files, 0)

/-- The loop-count adjustment of `main` (timg.cc lines 346-349): showing
exactly one frame implies the animation behaves as a static image. -/
def resolveLoops (max_frames loops : Int) : Int :=
  if max_frames = 1 then 1 else loops

/-- Modelled from the spec: the per-source playback loop of `SendFrames`
(`PlaybackSequencer`, spec section 4.3); its implementation lives in
image-display.cc / video-display.cc, which are not part of this source
tree.  Each cycle checks the stop reasons in the spec's order:
cancellation first, then the frame limit (`max_frames`; a negative value
is the "unbounded" sentinel), then — only at a loop boundary, i.e. when
the source has wrapped back to its first frame — the loop limit
(`max_loops`; a negative value such as `-1` is the "infinite" sentinel)
or source exhaustion for a non-looping source; otherwise it emits the
next frame and increments the counters.  Wall-clock duration is outside
this model.  `fuel` bounds the recursion so that an infinite
configuration stays a total function. -/
def sendFramesLoop (frames : List Nat) (wraps : Bool)
    (max_frames max_loops : Int) (cancelled : Bool) :
    Nat → List Nat → Nat → Nat → List Nat
  | 0, _, _, _ => []
  | fuel + 1, cur, emitted, loops_done =>
    if cancelled then []
    else if 0 ≤ max_frames ∧ max_frames ≤ (emitted : Int) then []
    else
      match cur with
      | [] =>
        if !wraps then []
        else if 0 ≤ max_loops ∧ max_loops ≤ (loops_done : Int) + 1 then []
        else
          sendFramesLoop frames wraps max_frames max_loops cancelled
            fuel frames emitted (loops_done + 1)
      | f :: rest =>
        f :: sendFramesLoop frames wraps max_frames max_loops cancelled
          fuel rest (emitted + 1) loops_done

/-- Modelled from the spec: `SendFrames` entry point — start the playback
loop at the first frame with zero frames emitted and zero completed
loops. -/
def sendFrames (frames : List Nat) (wraps : Bool)
    (max_frames max_loops : Int) (cancelled : Bool) (fuel : Nat) : List Nat :=
  sendFramesLoop frames wraps max_frames max_loops cancelled fuel frames 0 0

/-- `roundf` is the identity on integers. -/
theorem roundf_intCast (n : Int) : roundf (n : ℚ) = n := by
  unfold roundf
  split
  · rw [Int.floor_eq_iff]
    exact ⟨by linarith, by linarith⟩
  · rw [Int.ceil_eq_iff]
    exact ⟨by linarith, by linarith⟩

/-- The C idiom `a > b ? a : b` is `max`. -/
theorem ite_gt_eq_max (a b : ℚ) : (if a > b then a else b) = max a b := by
  by_cases hab : b < a
  · rw [if_pos hab, max_eq_left (le_of_lt hab)]
  · rw [if_neg hab, max_eq_right (not_lt.mp hab)]

/-- The C idiom `a < b ? a : b` is `min`. -/
theorem ite_lt_eq_min (a b : ℚ) : (if a < b then a else b) = min a b := by
  by_cases hab : a < b
  · rw [if_pos hab, min_eq_left (le_of_lt hab)]
  · rw [if_neg hab, min_eq_right (not_lt.mp hab)]

/-- Every source created in `main`'s loop receives exactly the
`DisplayOptions` the loop was entered with. -/
theorem mainFileLoop_shown (o : DisplayOptions) (di dv interrupt : Bool)
    (n : String) (k : SourceKind) (c : DisplayOptions) :
    ∀ files : List FileSpec,
      MainEvent.shown n k c ∈ mainFileLoop interrupt o di dv files → c = o := by
  intro files
  induction files with
  | nil => simp [mainFileLoop]
  | cons f rest ih =>
    intro hmem
    rcases hcr : (ImageSource.Create f di dv).1 with _ | k2 <;>
      cases interrupt <;> simp [mainFileLoop, hcr] at hmem
    · exact ih hmem
    · rcases hmem with ⟨hn, hk, hc⟩ | hmem
      · exact hc
      · exact ih hmem

/-- C1: for every native size with `native_width ≥ 1` and
`native_height ≥ 1` and every constraint box with `width ≥ 1` and
`height ≥ 1`, `CalcScaleToFitDisplay` returns `target_width ≥ 1` and
`target_height ≥ 1` on every path, including the no-upscale
early-return path. -/
theorem C1_geometry_dimensions_ge_one (w h : Int) (opts : DisplayOptions)
    (hw : 1 ≤ w) (hh : 1 ≤ h)
    (hcw : 1 ≤ opts.width) (hch : 1 ≤ opts.height) :
    1 ≤ (CalcScaleToFitDisplay w h opts).target_width ∧
      1 ≤ (CalcScaleToFitDisplay w h opts).target_height := by
  unfold CalcScaleToFitDisplay
  split
  · exact ⟨hw, hh⟩
  · refine ⟨?_, ?_⟩ <;> · dsimp only
                          split <;> omega

/-- Witness for C1 at native size 3×4 and a 5×6 box. -/
theorem C1_witness :
    1 ≤ (CalcScaleToFitDisplay 3 4 ⟨5, 6, false, false, false⟩).target_width ∧
      1 ≤ (CalcScaleToFitDisplay 3 4 ⟨5, 6, false, false, false⟩).target_height :=
  C1_geometry_dimensions_ge_one 3 4 ⟨5, 6, false, false, false⟩
    (by norm_num) (by norm_num) (by norm_num) (by norm_num)

/-- C2: when upscaling is disabled, the effective fit mode would not
require filling in either axis (for the width axis: `fill_height` is
requested or `width_fraction ≤ 1`; symmetric for height), and both
fractions are ≥ 1, the native size is returned unchanged with
`was_scaled = false`; in particular
`CalcScaleToFitDisplay 50 50 {100, 100, fill:none, upscale:false}`
is `(50, 50, false)`. -/
theorem C2_no_upscale_already_fits :
    (∀ (w h : Int) (opts : DisplayOptions), 1 ≤ w → 1 ≤ h →
      opts.upscale = false →
      (opts.fill_height = true ∨ (opts.width : ℚ) / w ≤ 1) →
      (opts.fill_width = true ∨ (opts.height : ℚ) / h ≤ 1) →
      1 ≤ (opts.width : ℚ) / w →
      1 ≤ (opts.height : ℚ) / h →
      CalcScaleToFitDisplay w h opts = ⟨w, h, false⟩) ∧
    CalcScaleToFitDisplay 50 50 ⟨100, 100, false, false, false⟩ =
      ⟨50, 50, false⟩ := by
  constructor
  · intro w h opts hw hh hup hax1 hax2 hwf hhf
    obtain ⟨ow, oh, fw, fh, up⟩ := opts
    dsimp only at hup hax1 hax2 hwf hhf
    subst hup
    have hwQ : (0:ℚ) < (w:ℚ) := by exact_mod_cast (by omega : (0:Int) < w)
    have hhQ : (0:ℚ) < (h:ℚ) := by exact_mod_cast (by omega : (0:Int) < h)
    have hw0 : ¬ (w ≤ 0) := by omega
    have hh0 : ¬ (h ≤ 0) := by omega
    have hdw : (w:ℚ) / w = 1 := div_self (ne_of_gt hwQ)
    have hdh : (h:ℚ) / h = 1 := div_self (ne_of_gt hhQ)
    cases fw <;> cases fh
    · -- neither fill flag: both fractions are exactly 1
      have h1 : (ow:ℚ) / w ≤ 1 := by
        rcases hax1 with h1 | h1
        · exact absurd h1 (by simp)
        · exact h1
      have h2 : (oh:ℚ) / h ≤ 1 := by
        rcases hax2 with h2 | h2
        · exact absurd h2 (by simp)
        · exact h2
      have heqw : ow = w := by
        have : (ow:ℚ) / w = 1 := le_antisymm h1 hwf
        field_simp at this
        exact_mod_cast this
      have heqh : oh = h := by
        have : (oh:ℚ) / h = 1 := le_antisymm h2 hhf
        field_simp at this
        exact_mod_cast this
      subst heqw
      subst heqh
      simp [CalcScaleToFitDisplay, noUpscaleGuard, fitTargets, hdw, hdh,
        roundf_intCast, hw0, hh0]
    · -- fill_height only: the height fraction is exactly 1
      have h2 : (oh:ℚ) / h ≤ 1 := by
        rcases hax2 with h2 | h2
        · exact absurd h2 (by simp)
        · exact h2
      have heqh : oh = h := by
        have : (oh:ℚ) / h = 1 := le_antisymm h2 hhf
        field_simp at this
        exact_mod_cast this
      subst heqh
      simp [CalcScaleToFitDisplay, noUpscaleGuard, fitTargets, hdh,
        roundf_intCast, hw0, hh0]
    · -- fill_width only: the width fraction is exactly 1
      have h1 : (ow:ℚ) / w ≤ 1 := by
        rcases hax1 with h1 | h1
        · exact absurd h1 (by simp)
        · exact h1
      have heqw : ow = w := by
        have : (ow:ℚ) / w = 1 := le_antisymm h1 hwf
        field_simp at this
        exact_mod_cast this
      subst heqw
      simp [CalcScaleToFitDisplay, noUpscaleGuard, fitTargets, hdw,
        roundf_intCast, hw0, hh0]
    · -- both fill flags: the early-return guard fires directly
      simp [CalcScaleToFitDisplay, noUpscaleGuard]
  · norm_num [CalcScaleToFitDisplay, noUpscaleGuard, fitTargets, roundf]

/-- Witness for C2 at native size 2×2 inside a 2×2 box without fill. -/
theorem C2_witness :
    CalcScaleToFitDisplay 2 2 ⟨2, 2, false, false, false⟩ = ⟨2, 2, false⟩ :=
  C2_no_upscale_already_fits.1 2 2 ⟨2, 2, false, false, false⟩
    (by norm_num) (by norm_num) rfl (Or.inr (by norm_num))
    (Or.inr (by norm_num)) (by norm_num) (by norm_num)

/-- C3: off the early-return path the fit factor is chosen by mode — both
fill flags: the larger fraction; only `fill_height`: the height fraction;
only `fill_width`: the width fraction; neither: the smaller fraction —
and the native dimensions are multiplied by the chosen factor and rounded
to nearest; in particular
`CalcScaleToFitDisplay 200 100 {100, 100, fill_width, ¬fill_height}`
is `(100, 50, true)`. -/
theorem C3_fit_factor_by_mode :
    (∀ (w h : Int) (opts : DisplayOptions), 1 ≤ w → 1 ≤ h →
      noUpscaleGuard w h opts = false →
      fitTargets w h opts =
        (if opts.fill_width && opts.fill_height then
          (roundf (max ((opts.width : ℚ) / w) ((opts.height : ℚ) / h) * w),
           roundf (max ((opts.width : ℚ) / w) ((opts.height : ℚ) / h) * h))
         else if opts.fill_height then
          (roundf ((opts.height : ℚ) / h * w), roundf ((opts.height : ℚ) / h * h))
         else if opts.fill_width then
          (roundf ((opts.width : ℚ) / w * w), roundf ((opts.width : ℚ) / w * h))
         else
          (roundf (min ((opts.width : ℚ) / w) ((opts.height : ℚ) / h) * w),
           roundf (min ((opts.width : ℚ) / w) ((opts.height : ℚ) / h) * h)))) ∧
    CalcScaleToFitDisplay 200 100 ⟨100, 100, true, false, false⟩ =
      ⟨100, 50, true⟩ := by
  constructor
  · intro w h opts hw hh hguard
    obtain ⟨ow, oh, fw, fh, up⟩ := opts
    have hwQ : ((w:ℚ)) ≠ 0 := by
      exact_mod_cast (by omega : (w:Int) ≠ 0)
    have hhQ : ((h:ℚ)) ≠ 0 := by
      exact_mod_cast (by omega : (h:Int) ≠ 0)
    have ew : (ow:ℚ) / w * w = ow := div_mul_cancel₀ _ hwQ
    have eh : (oh:ℚ) / h * h = oh := div_mul_cancel₀ _ hhQ
    cases fw <;> cases fh <;>
      simp [fitTargets, ite_gt_eq_max, ite_lt_eq_min, ew, eh, roundf_intCast]
  · norm_num [CalcScaleToFitDisplay, noUpscaleGuard, fitTargets, roundf]

/-- Witness for C3 at native size 2×2 in a 4×2 box with upscaling. -/
theorem C3_witness : fitTargets 2 2 ⟨4, 2, false, false, true⟩ = (2, 2) := by
  have h := C3_fit_factor_by_mode.1 2 2 ⟨4, 2, false, false, true⟩
    (by norm_num) (by norm_num) rfl
  norm_num [roundf, min_def] at h
  exact h

/-- C4 (code bug): the exit code of `main`'s file-processing path is the
constant 0 — `exit_code` is initialized and never reassigned — so a run
where a file fails to load exits with the same status as a run where
every file succeeds. -/
theorem C4_exit_code_ignores_failures (opts : DisplayOptions) :
    (mainRun opts 1 1 false true true [⟨"bad", false, false⟩]).1 =
        [MainEvent.skipped "bad"] ∧
      (mainRun opts 1 1 false true true [⟨"good", true, true⟩]).1 =
        [MainEvent.shown "good" SourceKind.image (gridCellOptions opts 1 1)] ∧
      (mainRun opts 1 1 false true true [⟨"bad", false, false⟩]).2 =
        (mainRun opts 1 1 false true true [⟨"good", true, true⟩]).2 ∧
      (∀ (cols rows : Int) (interrupt di dv : Bool) (files : List FileSpec),
        (mainRun opts cols rows interrupt di dv files).2 = 0) := by
  refine ⟨?_, ?_, rfl, fun _ _ _ _ _ _ => rfl⟩ <;>
    simp [mainRun, mainFileLoop, ImageSource.Create]

/-- C5: `max_frames = 1` forces `loops` to 1 regardless of the configured
value (including the infinite sentinel `-1`), and with `max_frames = 1`
the playback loop of an animated (wrapping) source emits exactly the
first frame and never starts a second cycle. -/
theorem C5_single_frame_single_loop :
    (∀ loops : Int, resolveLoops 1 loops = 1) ∧
    (∀ (loops : Int) (f : Nat) (rest : List Nat) (fuel : Nat), 2 ≤ fuel →
      sendFrames (f :: rest) true 1 (resolveLoops 1 loops) false fuel = [f]) := by
  constructor
  · intro loops
    simp [resolveLoops]
  · intro loops f rest fuel hfuel
    obtain ⟨k, rfl⟩ : ∃ k, fuel = k + 2 := ⟨fuel - 2, by omega⟩
    norm_num [sendFrames, sendFramesLoop]

/-- Witness for C5: an animated three-frame source with `--loops=-1` and
`--frames=1` shows exactly the first frame. -/
theorem C5_witness :
    resolveLoops 1 (-1) = 1 ∧
      sendFrames [7, 8, 9] true 1 (resolveLoops 1 (-1)) false 5 = [7] :=
  ⟨C5_single_frame_single_loop.1 (-1),
   C5_single_frame_single_loop.2 (-1) 7 [8, 9] 5 (by norm_num)⟩

/-- C6: with the cancellation flag set before any frame is emitted, the
playback loop emits zero frames and terminates at once, and `main`'s file
loop starts no input file at all (no `ImageSource` is created). -/
theorem C6_cancel_before_start (files : List FileSpec) (opts : DisplayOptions)
    (do_image do_video : Bool) (frames : List Nat) (wraps : Bool)
    (max_frames max_loops : Int) (fuel : Nat) :
    mainFileLoop true opts do_image do_video files = [] ∧
      sendFrames frames wraps max_frames max_loops true fuel = [] := by
  constructor
  · cases files <;> simp [mainFileLoop]
  · cases fuel <;> simp [sendFrames, sendFramesLoop]

/-- C7: `ImageSource::Create` probes the image backend first and returns
on success without touching the video backend; a video source is produced
only when image probing failed or was disabled and video probing is
enabled and succeeds; when every enabled backend fails, `Create` fails
and a diagnostic naming the file is emitted; and `main`'s loop skips a
failed file and continues with the remaining files. -/
theorem C7_probe_order_and_skip :
    (∀ (f : FileSpec) (attempt_video : Bool), f.image_loads = true →
      ImageSource.Create f true attempt_video = (some SourceKind.image, [])) ∧
    (∀ (f : FileSpec) (ai av : Bool),
      (ImageSource.Create f ai av).1 = some SourceKind.video →
      (ai = false ∨ f.image_loads = false) ∧ av = true ∧ f.video_loads = true) ∧
    (∀ (f : FileSpec) (ai av : Bool),
      (ai && f.image_loads) = false → (av && f.video_loads) = false →
      (ImageSource.Create f ai av).1 = none ∧
        (f.name ++ "\x3a couldn\x27t load") ∈ (ImageSource.Create f ai av).2) ∧
    (∀ (f : FileSpec) (rest : List FileSpec) (opts : DisplayOptions)
      (di dv : Bool),
      (ImageSource.Create f di dv).1 = none →
      mainFileLoop false opts di dv (f :: rest) =
        MainEvent.skipped f.name :: mainFileLoop false opts di dv rest) := by
  refine ⟨?_, ?_, ?_, ?_⟩
  · intro f av h
    simp [ImageSource.Create, h]
  · intro f ai av h
    obtain ⟨n, il, vl⟩ := f
    cases ai <;> cases av <;> cases il <;> cases vl <;>
      simp_all [ImageSource.Create]
  · intro f ai av h1 h2
    obtain ⟨n, il, vl⟩ := f
    cases ai <;> cases av <;> cases il <;> cases vl <;>
      simp_all [ImageSource.Create, createMessages]
  · intro f rest opts di dv h
    simp [mainFileLoop, h]

/-- Witness for C7: an image file wins the probe; a video-only file falls
through to the video backend; an unloadable file is reported and the loop
moves on to the next file. -/
theorem C7_witness :
    ImageSource.Create ⟨"a", true, false⟩ true true =
        (some SourceKind.image, []) ∧
      ((true = false ∨ (⟨"b", false, true⟩ : FileSpec).image_loads = false) ∧
        true = true ∧ (⟨"b", false, true⟩ : FileSpec).video_loads = true) ∧
      ((ImageSource.Create ⟨"c", false, false⟩ true true).1 = none ∧
        ((⟨"c", false, false⟩ : FileSpec).name ++ "\x3a couldn\x27t load") ∈
          (ImageSource.Create ⟨"c", false, false⟩ true true).2) ∧
      mainFileLoop false ⟨8, 8, false, false, false⟩ true true
          [⟨"c", false, false⟩, ⟨"d", true, true⟩] =
        MainEvent.skipped "c" ::
          mainFileLoop false ⟨8, 8, false, false, false⟩ true true
            [⟨"d", true, true⟩] :=
  ⟨C7_probe_order_and_skip.1 ⟨"a", true, false⟩ true rfl,
   C7_probe_order_and_skip.2.1 ⟨"b", false, true⟩ true true (by simp [ImageSource.Create]),
   C7_probe_order_and_skip.2.2.1 ⟨"c", false, false⟩ true true rfl rfl,
   C7_probe_order_and_skip.2.2.2 ⟨"c", false, false⟩ [⟨"d", true, true⟩]
     ⟨8, 8, false, false, false⟩ true true (by simp [ImageSource.Create, createMessages])⟩

/-- C8: with `cols ≥ 1` and `rows ≥ 1` each source's cell is
`canvas_width / cols` by `canvas_height / rows` (truncating integer
division), and exactly this cell is the constraint box every created
source is scaled against; in particular a 100×50 canvas with a 2×1 grid
gives 50×50 cells. -/
theorem C8_grid_cell_constraints :
    (∀ (opts : DisplayOptions) (grid_cols grid_rows : Int),
      1 ≤ grid_cols → 1 ≤ grid_rows →
      ∀ (interrupt di dv : Bool) (files : List FileSpec)
        (n : String) (k : SourceKind) (c : DisplayOptions),
        MainEvent.shown n k c ∈
            (mainRun opts grid_cols grid_rows interrupt di dv files).1 →
        c.width = Int.tdiv opts.width grid_cols ∧
          c.height = Int.tdiv opts.height grid_rows) ∧
    (∀ fw fh up : Bool,
      gridCellOptions ⟨100, 50, fw, fh, up⟩ 2 1 = ⟨50, 50, fw, fh, up⟩) := by
  constructor
  · intro opts grid_cols grid_rows hc hr interrupt di dv files n k c hmem
    have := mainFileLoop_shown (gridCellOptions opts grid_cols grid_rows)
      di dv interrupt n k c files hmem
    subst this
    exact ⟨rfl, rfl⟩
  · intro fw fh up
    rfl

/-- Witness for C8: one image file on a 100×50 canvas with a 2×1 grid. -/
theorem C8_witness :
    (gridCellOptions ⟨100, 50, false, false, false⟩ 2 1).width = Int.tdiv 100 2 ∧
      (gridCellOptions ⟨100, 50, false, false, false⟩ 2 1).height = Int.tdiv 50 1 :=
  C8_grid_cell_constraints.1 ⟨100, 50, false, false, false⟩ 2 1
    (by norm_num) (by norm_num) false true true [⟨"a", true, true⟩]
    "a" SourceKind.image (gridCellOptions ⟨100, 50, false, false, false⟩ 2 1)
    (by simp [mainRun, mainFileLoop, ImageSource.Create])

/-- C9: the bool returned by `CalcScaleToFitDisplay` is true exactly when
the target differs from the native size in either axis. -/
theorem C9_was_scaled_iff (w h : Int) (opts : DisplayOptions) :
    (CalcScaleToFitDisplay w h opts).scaled = true ↔
      ((CalcScaleToFitDisplay w h opts).target_width ≠ w ∨
        (CalcScaleToFitDisplay w h opts).target_height ≠ h) := by
  unfold CalcScaleToFitDisplay
  split
  · simp
  · dsimp only
    simp [Bool.or_eq_true, bne_iff_ne]

/-- C10: off the early-return path with exactly one fill flag set, the
hard-constrained axis of the pre-clamp target is the constraint value
itself, not a recomputed product: only `fill_height` gives
`target_height = options.height`; only `fill_width` gives
`target_width = options.width`. -/
theorem C10_constrained_axis_exact (w h : Int) (opts : DisplayOptions)
    (hguard : noUpscaleGuard w h opts = false) :
    (opts.fill_height = true → opts.fill_width = false →
      (fitTargets w h opts).2 = opts.height) ∧
    (opts.fill_width = true → opts.fill_height = false →
      (fitTargets w h opts).1 = opts.width) := by
  constructor
  · intro h1 h2
    simp [fitTargets, h1, h2]
  · intro h1 h2
    simp [fitTargets, h1, h2]

/-- Witness for C10 at native size 3×4 with a 7×5 box, for each single
fill flag. -/
theorem C10_witness :
    (fitTargets 3 4 ⟨7, 5, false, true, true⟩).2 = 5 ∧
      (fitTargets 3 4 ⟨7, 5, true, false, true⟩).1 = 7 :=
  ⟨(C10_constrained_axis_exact 3 4 ⟨7, 5, false, true, true⟩ rfl).1 rfl rfl,
   (C10_constrained_axis_exact 3 4 ⟨7, 5, true, false, true⟩ rfl).2 rfl rfl⟩

end Timg
